import Mathlib

/-!
Verification of the YouTube-Video-Automation-System idea/script/SEO pipeline.

This file shallowly embeds the pure computational core of the repository:

* `src/seo_optimizer.py` — `optimize_title`, `generate_description`,
  `generate_tags`, `calculate_seo_score` of class `SEOOptimizer`;
* `src/ai/gen_ideas.py` — the five `fetch_*_trends` sources,
  `optimize_idea_with_ai` and the raw-idea pool accumulated by
  `generate_ideas` of class `ViralIdeaGenerator`;
* `src/ai/gen_script.py` — `generate_script_dynamic_patterns` of class
  `ScriptGenerator`.

Conventions of the embedding:

* Python strings are `String`; `len` is length in code points (`strLen`),
  slicing `s[:n]` is `strTake`, the substring test `a in b` is `isSub`
  (both sides ASCII in every use relevant here), `str.lower()` is
  `lowerStr` (`Char.toLower`, which agrees with Python on ASCII), and
  `str.isdigit` is `Char.isDigit` (agreeing on ASCII).
* Python dict fields that may be absent are `Option` fields; `d.get(k, v)`
  is `Option.getD`.  The popularity counts carried by the fetch sources
  (GitHub stars, HackerNews/Reddit scores, Stack Overflow tag-usage
  counts, Dev.to reaction counts) are non-negative, so they are `Nat`,
  matching Python `//` with `Nat` division.
* Network calls and the hosted-model call are external inputs: each call
  outcome is passed in explicitly (`Except Unit` for "the HTTP request or
  JSON decode raised" versus a status code and decoded payload;
  `ModelOutcome` for the model call).  An exception raised by
  `requests.get`, `response.json()` or a missing JSON key inside the
  guarded `try` block is the `.error` case.
* `random.choice(l)` is modelled by passing the chosen element of `l`
  explicitly (with membership hypotheses where a theorem needs them), and
  process-wide PRNG state is modelled as an explicit state value threaded
  through the `_st` variants of the `SEOOptimizer` methods.
-/

/-! ## String helpers -/

/-- Length of a Python string (`len`), counted in code points. -/
def strLen (s : String) : Nat := s.data.length

/-- Python slice `s[:n]`. -/
def strTake (s : String) (n : Nat) : String := ⟨s.data.take n⟩

/-- Python `str.lower()` (agrees with `Char.toLower` on the ASCII data used
here). -/
def lowerStr (s : String) : String := ⟨s.data.map Char.toLower⟩

/-- Contiguous-sublist test on character lists: `infixOfB n h` decides
whether `n` occurs inside `h`. -/
def infixOfB (n : List Char) : List Char → Bool
  | [] => n.isEmpty
  | c :: t => n.isPrefixOf (c :: t) || infixOfB n t

/-- Python substring test `needle in hay`. -/
def isSub (needle hay : String) : Bool := infixOfB needle.data hay.data

/-- Python `any(char.isdigit() for char in s)` (ASCII digits). -/
def hasDigitStr (s : String) : Bool := s.data.any Char.isDigit

/-! ## `SEOOptimizer` keyword databases (`src/seo_optimizer.py`, `__init__`) -/

/-- Field `self.power_words` of `SEOOptimizer`. -/
def power_words : List String :=
  ["incredible", "amazing", "shocking", "unbelievable", "mind-blowing",
   "the ultimate", "secrets", "hidden", "finally revealed", "exposed",
   "the truth about", "why", "how to", "avoid", "stop", "never",
   "biggest", "best", "worst", "crucial", "critical", "essential",
   "proven", "official", "real", "honest", "brutal", "raw"]

/-- The keys of `self.viral_keywords` of `SEOOptimizer`, in insertion
order. -/
def viral_keyword_keys : List String :=
  ["ai", "python", "javascript", "react", "chatgpt", "machine learning",
   "web development", "devops", "kubernetes", "rust", "golang",
   "typescript", "nextjs", "api", "database"]

/-- Field `self.cta_hooks` of `SEOOptimizer`. -/
def cta_hooks : List String :=
  ["If you find this helpful, smash the like button and subscribe",
   "Make sure to watch till the end for the bonus tip",
   "Drop a comment telling me what you think",
   "Subscribe to the channel for more advanced content",
   "Follow for weekly tutorials and coding tips",
   "Join our Discord community for daily challenges"]

/-! ## `calculate_seo_score` (`src/seo_optimizer.py` lines 201-266) -/

/-- The score dictionary returned by `calculate_seo_score`. -/
structure SeoScore where
  title_score : Nat
  description_score : Nat
  tags_score : Nat
  total_score : Nat
deriving Repr, DecidableEq

/-- The `score['title_score']` computation: length-bucket bonus, power-word
bonus, the unconditional 30-point keyword assumption, digit bonus, all
clamped by `min(100, ·)`. -/
def title_score_calc (title : String) : Nat :=
  min 100
    ((if 40 ≤ strLen title ∧ strLen title ≤ 70 then 30
      else if 20 ≤ strLen title ∧ strLen title ≤ 100 then 15 else 0)
     + (if power_words.any (fun w => isSub w (lowerStr title))
          || ["top", "best", "vs", "why"].any (fun w => isSub w (lowerStr title))
        then 20 else 0)
     + 30
     + (if hasDigitStr title then 20 else 0))

/-- The `score['description_score']` computation: length bonus, viral-keyword
density capped at 40, link/CTA bonus, clamped by `min(100, ·)`. -/
def description_score_calc (description : String) : Nat :=
  min 100
    ((if 200 ≤ strLen description then 30
      else if 100 < strLen description then 15 else 0)
     + min ((viral_keyword_keys.filter (fun k => isSub k (lowerStr description))).length * 10) 40
     + (if isSub "http" description
          || cta_hooks.any (fun c => isSub c description)
          || isSub "subscribe" (lowerStr description)
        then 30 else 0))

/-- The `score['tags_score']` computation: tag-count buckets 100 / 50 / 20. -/
def tags_score_calc (tags : List String) : Nat :=
  if 10 ≤ tags.length ∧ tags.length ≤ 40 then 100
  else if 5 ≤ tags.length ∧ tags.length < 10 then 50
  else 20

/-- `SEOOptimizer.calculate_seo_score`.  `total_score` is Python
`int((t + d + g) / 3)`, which for the non-negative summands equals `Nat`
(floor) division by 3. -/
def calculate_seo_score (title description : String) (tags : List String) : SeoScore :=
  { title_score := title_score_calc title
    description_score := description_score_calc description
    tags_score := tags_score_calc tags
    total_score := (title_score_calc title + description_score_calc description
                    + tags_score_calc tags) / 3 }

/-! ## `generate_tags` (`src/seo_optimizer.py` lines 161-199) -/

/-- Order-preserving de-duplication keeping the first occurrence of each
element, the behaviour of Python `list(dict.fromkeys(tags))`. -/
def dedupFirst {α : Type _} [DecidableEq α] : List α → List α
  | [] => []
  | x :: xs => x :: dedupFirst (xs.filter (fun y => decide (y ≠ x)))
termination_by l => l.length
decreasing_by
  simp only [List.length_cons]
  exact Nat.lt_succ_of_le (List.length_filter_le _ _)

/-- The `category_tags` dictionary lookup with default `[]` inside
`generate_tags`. -/
def category_tags_lookup (category : String) : List String :=
  if category = "Education" then ["tutorial", "learn", "how to", "guide", "beginner"]
  else if category = "Technology" then ["tech", "software", "programming", "coding", "development"]
  else if category = "Entertainment" then ["viral", "trending", "reaction", "funny", "entertainment"]
  else []

/-- `SEOOptimizer.generate_tags`: primary keywords (lowercased, first 5),
two variations per keyword for the first 3, category tags, trending tags,
then `list(dict.fromkeys(tags))[:30]`.  The `title` argument is accepted and
ignored, exactly as in the source. -/
def generate_tags (title : String) (keywords : List String) (category : String) : List String :=
  let tags := (keywords.take 5).map lowerStr
  let tags := tags ++
    ((keywords.take 3).map (fun k => [lowerStr k ++ " tutorial", "learn " ++ lowerStr k])).join
  let tags := tags ++ category_tags_lookup category
  let tags := tags ++ ["2025", lowerStr category, "explained", "for beginners"]
  (dedupFirst tags).take 30

/-! ## `generate_description` (`src/seo_optimizer.py` lines 106-159) -/

/-- `SEOOptimizer.generate_description`.  `video_duration` is accepted and
never read, exactly as in the source (the timestamp block is hardcoded).
`String.trim` models Python `str.strip()` (they agree on ASCII whitespace),
and the final `strTake · 5000` is the YouTube-limit slice `[:5000]`. -/
def generate_description (title script : String) (keywords : List String)
    (video_duration : Nat) : String :=
  let sentences := script.splitOn "."
  let key_points := ((sentences.take 5).map String.trim).filter (fun s => 20 < strLen s)
  let base :=
    "📚 " ++ title ++ "\n\nLearn everything you need to know about "
      ++ (match keywords with | [] => "this topic" | k :: _ => k)
      ++ " in this comprehensive guide.\n\n⏲️ TIMESTAMPS:\n0:00 - Intro\n1:00 - Key Concepts\n3:00 - Practical Examples\n5:00 - Advanced Tips\n7:00 - Conclusion\n\n🎯 WHAT YOU\x27LL LEARN:\n"
  let withPoints := base ++ String.join ((key_points.take 5).map (fun p => "✓ " ++ p ++ "\n"))
  let withKeywords := withPoints ++ "\n🔍 KEYWORDS: "
      ++ String.intercalate ", " (keywords.take 8) ++ "\n\n"
  let withCta := withKeywords
      ++ "👍 HELP ME OUT:\n- Like this video\n- Subscribe to the channel\n- Turn on notifications\n- Drop a comment below\n\n#"
  let withTags := withCta ++ String.intercalate " #" (keywords.take 5)
  strTake withTags 5000

/-! ## `optimize_title` (`src/seo_optimizer.py` lines 60-104) -/

/-- The candidate list of the `random.choice` picking a power word in step 2
of `optimize_title`. -/
def pw_title_choices : List String :=
  ["Incredible", "Amazing", "Shocking", "Ultimate", "Exposed",
   "Hidden", "Secret", "Best", "Crucial"]

/-- The candidate list of the `random.choice` picking a numeric prefix in
step 3 of `optimize_title`. -/
def num_prefix_choices : List String := ["Top 10 ", "5 ", "7 ", "3 "]

/-- The candidate list of the `random.choice` picking a hook suffix in step 4
of `optimize_title`. -/
def hook_suffix_choices : List String :=
  [" | Explained", " - Full Guide", " [Tutorial]", " (Must Watch)"]

/-- The power-word presence test
`any(pw in base_title.lower() for pw in self.power_words)`. -/
def hasPowerWordB (s : String) : Bool :=
  power_words.any (fun w => isSub w (lowerStr s))

/-- Every word `optimize_title` can guarantee in its output: the
`SEOOptimizer.power_words` database together with the lowercased step-2
candidate words (the source draws the prepended word from
`pw_title_choices`, some of which — "Ultimate", "Secret" — are not
themselves in `power_words`). -/
def power_word_pool : List String := power_words ++ pw_title_choices.map lowerStr

/-- Containment of some word of `power_word_pool`. -/
def hasAnyPowerB (s : String) : Bool :=
  power_word_pool.any (fun w => isSub w (lowerStr s))

/-- Step 1 of `optimize_title`: prepend `"{keyword}: "` when the keyword is
given (Python-truthy) and not already present case-insensitively. -/
def ot_step1 (base_title : String) (keyword : Option String) : String :=
  match keyword with
  | some k => if isSub (lowerStr k) (lowerStr base_title) then base_title
              else k ++ ": " ++ base_title
  | none => base_title

/-- Step 2 of `optimize_title`: prepend the chosen power word if none of
`power_words` occurs. -/
def ot_step2 (t : String) (pw : String) : String :=
  if hasPowerWordB t then t else pw ++ ": " ++ t

/-- Step 3 of `optimize_title`: ensure a digit — prepend the chosen numeric
prefix for `video_type == 'ranking'`, else append `" (In 5 Minutes)"`. -/
def ot_step3 (t : String) (video_type : String) (np : String) : String :=
  if hasDigitStr t then t
  else if video_type = "ranking" then np ++ t
  else t ++ " (In 5 Minutes)"

/-- Step 4 of `optimize_title`: append the chosen hook when shorter than 40
characters. -/
def ot_step4 (t : String) (hk : String) : String :=
  if strLen t < 40 then t ++ hk else t

/-- Step 5 of `optimize_title`: prepend `"The "` when still shorter than 40
characters. -/
def ot_step5 (t : String) : String :=
  if strLen t < 40 then "The " ++ t else t

/-- `optimize_title` before its final 80-character cap; `pw`, `np`, `hk` are
the outcomes of the three `random.choice` calls. -/
def optimize_title_pre (base_title : String) (keyword : Option String)
    (video_type : String) (pw np hk : String) : String :=
  ot_step5 (ot_step4 (ot_step3 (ot_step2 (ot_step1 base_title keyword) pw) video_type np) hk)

/-- `SEOOptimizer.optimize_title`: the five transformation steps followed by
the cap `base_title[:77] + "..."` when longer than 80 characters. -/
def optimize_title (base_title : String) (keyword : Option String)
    (video_type : String) (pw np hk : String) : String :=
  let t := optimize_title_pre base_title keyword video_type pw np hk
  if 80 < strLen t then strTake t 77 ++ "..." else t

/-! ## Explicit PRNG threading (for the determinism claim)

The Python `random` module is process-global state consumed only inside
`optimize_title`; the other three `SEOOptimizer` methods never touch it.
The `_st` variants make that state explicit: a stream of choice indices. -/

/-- Model of the process-global PRNG stream: the indices successive
`random.choice` calls will use. -/
abbrev RandState := List Nat

/-- Model of `random.choice l`: consume one index from the stream and pick
that element of `l` (modulo its length). -/
def randChoice (l : List String) (d : String) (rs : RandState) : String × RandState :=
  match rs with
  | [] => (l.getD 0 d, [])
  | n :: rest => (l.getD (n % l.length) d, rest)

/-- `optimize_title` with the PRNG stream threaded explicitly; each of the
three `random.choice` call sites consumes state only when its branch is
reached, as in the source. -/
def optimize_title_st (rs : RandState) (base_title : String) (keyword : Option String)
    (video_type : String) : String × RandState :=
  let t1 := ot_step1 base_title keyword
  let s2 := if hasPowerWordB t1 then (t1, rs)
    else
      let pr := randChoice pw_title_choices "Incredible" rs
      (pr.1 ++ ": " ++ t1, pr.2)
  let s3 := if hasDigitStr s2.1 then s2
    else if video_type = "ranking" then
      let pr := randChoice num_prefix_choices "Top 10 " s2.2
      (pr.1 ++ s2.1, pr.2)
    else (s2.1 ++ " (In 5 Minutes)", s2.2)
  let s4 := if strLen s3.1 < 40 then
      let pr := randChoice hook_suffix_choices " | Explained" s3.2
      (s3.1 ++ pr.1, pr.2)
    else s3
  let t5 := ot_step5 s4.1
  (if 80 < strLen t5 then strTake t5 77 ++ "..." else t5, s4.2)

/-- `generate_description` with the PRNG stream threaded explicitly: the
source makes no `random` call, so the state passes through untouched. -/
def generate_description_st (rs : RandState) (title script : String)
    (keywords : List String) (video_duration : Nat) : String × RandState :=
  (generate_description title script keywords video_duration, rs)

/-- `generate_tags` with the PRNG stream threaded explicitly: the source
makes no `random` call, so the state passes through untouched. -/
def generate_tags_st (rs : RandState) (title : String) (keywords : List String)
    (category : String) : List String × RandState :=
  (generate_tags title keywords category, rs)

/-- `calculate_seo_score` with the PRNG stream threaded explicitly: the
source makes no `random` call, so the state passes through untouched. -/
def calculate_seo_score_st (rs : RandState) (title description : String)
    (tags : List String) : SeoScore × RandState :=
  (calculate_seo_score title description tags, rs)

/-- Concrete base title used to exercise the 80-character cap of
`optimize_title`: 81 characters, contains the power word "best", contains no
digit. -/
def c7_base : String :=
  "The best way to structure and test your microservices architecture for production"

/-! ## Raw ideas and the Trend Fetcher (`src/ai/gen_ideas.py` lines 57-198)

Every fetch source normalises a decoded JSON payload into raw-idea dicts.
The HTTP/JSON outcome of each `requests.get` is an explicit input:
`.error ()` when the request, `response.json()` or a key access inside the
guarded `try` raised (timeout, network, parse error), `.ok (status, payload)`
when a decoded response with the given status code came back. -/

/-- A raw-idea dict as built by the `fetch_*_trends` methods (and as consumed
by `optimize_idea_with_ai`, whose `.get` calls tolerate absent keys).  Each
source fills a different popularity key: GitHub `stars`, HackerNews and
Reddit `score`, Stack Overflow `count`, Dev.to `reactions`. -/
structure RawIdea where
  title : Option String
  source : Option String
  keywords : Option String
  description : Option String
  url : Option String
  score : Option Nat
  stars : Option Nat
  count : Option Nat
  reactions : Option Nat
deriving Repr, DecidableEq

/-- Python `x or d` on an optional string (`None` and `""` are falsy). -/
def pyOrStr (o : Option String) (d : String) : String :=
  match o with
  | some s => if s = "" then d else s
  | none => d

/-- A repository record from the GitHub search payload
(`response.json()['items']` entries), with the fields `fetch_github_trends`
reads. -/
structure RepoRec where
  name : String
  language : Option String
  description : Option String
  html_url : String
  stargazers_count : Nat
deriving Repr, DecidableEq

/-- The dict comprehension body of `fetch_github_trends`. -/
def github_to_raw (repo : RepoRec) : RawIdea :=
  { title := some (repo.name ++ " - GitHub Trending")
    source := some "GitHub"
    keywords := some (pyOrStr repo.language "Open Source")
    description := some (pyOrStr repo.description repo.name)
    url := some repo.html_url
    score := none, stars := some repo.stargazers_count, count := none, reactions := none }

/-- `ViralIdeaGenerator.fetch_github_trends`: on HTTP 200 map the first 8
repository records, on any other status or raised exception contribute
nothing. -/
def fetch_github_trends : Except Unit (Nat × List RepoRec) → List RawIdea
  | .error _ => []
  | .ok (status, repos) => if status = 200 then (repos.take 8).map github_to_raw else []

/-- A HackerNews story detail payload, with the fields
`fetch_hackernews_trends` reads. -/
structure HNStory where
  title : Option String
  type : Option String
  url : Option String
  score : Option Nat
deriving Repr, DecidableEq

/-- The trend record appended per accepted HackerNews story. -/
def hn_story_to_raw (t : String) (story : HNStory) : RawIdea :=
  { title := some t
    source := some "HackerNews"
    keywords := some "Tech News"
    description := some t
    url := some (story.url.getD "")
    score := some (story.score.getD 0), stars := none, count := none, reactions := none }

/-- `ViralIdeaGenerator.fetch_hackernews_trends`: fetch the top-story id
list, then sequentially fetch details for the first 8 of the first 20 ids
(`detail` is the per-id call outcome); a story is kept when its detail call
returned 200, it has a title, and its type is exactly "story"; any per-story
exception just skips that story (`continue`). -/
def fetch_hackernews_trends (outer : Except Unit (Nat × List Nat))
    (detail : Nat → Except Unit (Nat × HNStory)) : List RawIdea :=
  match outer with
  | .error _ => []
  | .ok (status, ids) =>
      if status = 200 then
        ((ids.take 20).take 8).foldl (fun trends sid =>
          match detail sid with
          | .error _ => trends
          | .ok (st, story) =>
              if st = 200 then
                match story.title with
                | some t =>
                    if story.type = some "story" then trends ++ [hn_story_to_raw t story]
                    else trends
                | none => trends
              else trends) []
      else []

/-- An article record from the Dev.to payload, with the fields
`fetch_devto_trends` reads. -/
structure ArticleRec where
  title : String
  tag_list : Option (List String)
  description : Option String
  url : String
  public_reactions_count : Option Nat
deriving Repr, DecidableEq

/-- The dict comprehension body of `fetch_devto_trends`. -/
def devto_to_raw (a : ArticleRec) : RawIdea :=
  { title := some a.title
    source := some "Dev.to"
    keywords := some (String.intercalate "," (a.tag_list.getD ["coding"]))
    description := some (a.description.getD a.title)
    url := some a.url
    score := none, stars := none, count := none
    reactions := some (a.public_reactions_count.getD 0) }

/-- `ViralIdeaGenerator.fetch_devto_trends`: on HTTP 200 map the first 8
articles, otherwise contribute nothing. -/
def fetch_devto_trends : Except Unit (Nat × List ArticleRec) → List RawIdea
  | .error _ => []
  | .ok (status, articles) => if status = 200 then (articles.take 8).map devto_to_raw else []

/-- A post record from the Reddit payload (`data.children[i].data`), with the
fields `fetch_reddit_trends` reads. -/
structure RedditPost where
  title : String
  permalink : String
  score : Nat
  is_self : Option Bool
  url : Option String
deriving Repr, DecidableEq

/-- The comprehension guard `post['data'].get('is_self') or
post['data'].get('url')` under Python truthiness. -/
def reddit_keep (p : RedditPost) : Bool :=
  p.is_self.getD false || (match p.url with | some s => decide (s ≠ "") | none => false)

/-- The dict comprehension body of `fetch_reddit_trends`. -/
def reddit_to_raw (p : RedditPost) : RawIdea :=
  { title := some p.title
    source := some "Reddit"
    keywords := some "Programming"
    description := some p.title
    url := some ("https://reddit.com" ++ p.permalink)
    score := some p.score, stars := none, count := none, reactions := none }

/-- `ViralIdeaGenerator.fetch_reddit_trends`: on HTTP 200 keep the first 8
posts that pass the guard, otherwise contribute nothing. -/
def fetch_reddit_trends : Except Unit (Nat × List RedditPost) → List RawIdea
  | .error _ => []
  | .ok (status, posts) =>
      if status = 200 then ((posts.take 8).filter reddit_keep).map reddit_to_raw else []

/-- A tag record from the Stack Overflow payload, with the fields
`fetch_stackoverflow_trends` reads. -/
structure TagRec where
  name : String
  count : Nat
  has_synonyms : Option Bool
deriving Repr, DecidableEq

/-- The comprehension guard `tag.get('has_synonyms') or tag['count'] > 50000`. -/
def so_keep (t : TagRec) : Bool :=
  t.has_synonyms.getD false || decide (50000 < t.count)

/-- The dict comprehension body of `fetch_stackoverflow_trends`. -/
def so_to_raw (t : TagRec) : RawIdea :=
  { title := some ("Mastering " ++ t.name ++ " on Stack Overflow")
    source := some "Stack Overflow"
    keywords := some t.name
    description := some (toString t.count ++ " questions about " ++ t.name)
    url := some ("https://stackoverflow.com/questions/tagged/" ++ t.name)
    score := none, stars := none, count := some t.count, reactions := none }

/-- `ViralIdeaGenerator.fetch_stackoverflow_trends`: on HTTP 200 keep the
first 8 tags that pass the guard, otherwise contribute nothing. -/
def fetch_stackoverflow_trends : Except Unit (Nat × List TagRec) → List RawIdea
  | .error _ => []
  | .ok (status, tags) =>
      if status = 200 then ((tags.take 8).filter so_keep).map so_to_raw else []

/-- The raw-idea pool accumulated by `generate_ideas` (the spec's
`fetchAll`): `raw_ideas = []` followed by the five sequential
`raw_ideas.extend(...)` calls, in source-call order. -/
def fetch_all_raw_ideas (og : Except Unit (Nat × List RepoRec))
    (ohn : Except Unit (Nat × List Nat)) (dhn : Nat → Except Unit (Nat × HNStory))
    (od : Except Unit (Nat × List ArticleRec)) (ored : Except Unit (Nat × List RedditPost))
    (oso : Except Unit (Nat × List TagRec)) : List RawIdea :=
  let raw_ideas : List RawIdea := []
  let raw_ideas := raw_ideas ++ fetch_github_trends og
  let raw_ideas := raw_ideas ++ fetch_hackernews_trends ohn dhn
  let raw_ideas := raw_ideas ++ fetch_devto_trends od
  let raw_ideas := raw_ideas ++ fetch_reddit_trends ored
  let raw_ideas := raw_ideas ++ fetch_stackoverflow_trends oso
  raw_ideas

/-- A source call failed: the request (or payload decoding) raised, or a
non-200 status came back. -/
def sourceFailed {β : Type _} : Except Unit (Nat × β) → Prop
  | .error _ => True
  | .ok (st, _) => st ≠ 200

/-! ## The Idea Optimizer (`src/ai/gen_ideas.py` lines 200-265) -/

/-- The optimized-idea dict returned by `optimize_idea_with_ai`.  `title`
stays optional because the JSON-unparseable branch stores
`raw_idea.get('title')`, which is `None` when the key is absent. -/
structure OptIdea where
  title : Option String
  hook : String
  keyword : String
  viral_score : Nat
  viral_elements : Option (List String)
deriving Repr, DecidableEq

/-- The fields `optimize_idea_with_ai` reads out of a successfully parsed
model JSON object (each may be absent). -/
structure ParsedIdea where
  title : Option String
  hook : Option String
  keyword : Option String
  viral_score : Option Nat
  viral_elements : Option (List String)
deriving Repr, DecidableEq

/-- Outcome of the hosted-model call inside `optimize_idea_with_ai`:
`failure` when `client.chat.completions.create` (or anything else in the
outer `try`) raised; `success text parsed` when it returned, with `text` the
stripped response body and `parsed` the result of `json.loads` (`none` when
JSON parsing raised). -/
inductive ModelOutcome where
  | failure
  | success (text : String) (parsed : Option ParsedIdea)
deriving Repr, DecidableEq

/-- Python `f"...{x}..."` interpolation of a possibly-`None` value. -/
def pyStrOpt (o : Option String) : String := o.getD "None"

/-- The popularity signal chain
`raw_idea.get('score', raw_idea.get('stars', raw_idea.get('count', 50)))`. -/
def popularity (raw : RawIdea) : Nat :=
  raw.score.getD (raw.stars.getD (raw.count.getD 50))

/-- The rule-based fallback dict of the `not self.use_ai` branch of
`optimize_idea_with_ai`. -/
def fallback_no_ai (raw : RawIdea) : OptIdea :=
  { title := some (raw.title.getD "New Trend")
    hook := "Breaking: " ++ raw.title.getD "New Trend" ++ " is changing everything..."
    keyword := raw.keywords.getD "coding"
    viral_score := min 98 (popularity raw / 100 + 70)
    viral_elements := none }

/-- The fallback dict of the `except` handler of `optimize_idea_with_ai`
(model call raised): same hook and keyword as `fallback_no_ai`, but
`viral_score` is the literal 80. -/
def fallback_error (raw : RawIdea) : OptIdea :=
  { title := some (raw.title.getD "New Trend")
    hook := "Breaking: " ++ raw.title.getD "New Trend" ++ " is changing everything..."
    keyword := raw.keywords.getD "coding"
    viral_score := 80
    viral_elements := none }

/-- `ViralIdeaGenerator.optimize_idea_with_ai`, with the model-call outcome
as an explicit input.  `use_ai` is `self.use_ai` (key present and `groq`
importable). -/
def optimize_idea_with_ai (raw : RawIdea) (use_ai : Bool) (outcome : ModelOutcome) : OptIdea :=
  if use_ai = false then fallback_no_ai raw
  else
    match outcome with
    | .failure => fallback_error raw
    | .success text parsed =>
        match parsed with
        | some p =>
            { title := p.title <|> raw.title
              hook := p.hook.getD ("Breaking: " ++ pyStrOpt raw.title ++ "...")
              keyword := p.keyword.getD (raw.keywords.getD "coding")
              viral_score := p.viral_score.getD 85
              viral_elements := some (p.viral_elements.getD []) }
        | none =>
            { title := raw.title
              hook := strTake text 100 ++ "..."
              keyword := raw.keywords.getD "coding"
              viral_score := 85
              viral_elements := none }

/-- Python `str.startswith`. -/
def strStartsWith (p s : String) : Bool := p.data.isPrefixOf s.data

/-- A raw idea with no popularity signal at all (no score, stars, or count
key). -/
def raw_sample_none : RawIdea :=
  { title := none, source := none, keywords := none, description := none,
    url := none, score := none, stars := none, count := none, reactions := none }

/-- A GitHub-shaped raw idea carrying `stars = 250` (spec scenario 2's
popularity). -/
def raw_sample_250 : RawIdea :=
  { title := some "Async Rust", source := some "GitHub", keywords := some "Rust",
    description := some "a fast async runtime", url := some "https://example.org",
    score := none, stars := some 250, count := none, reactions := none }

/-! ## The Script Expander template path (`src/ai/gen_script.py` lines 119-266) -/

/-- A scene dict of the generated script.  Keys present only on some scenes
(`is_hook`, `is_cta`, `viral_element`, `engagement_target`) are optional. -/
structure Scene where
  number : Nat
  duration : Nat
  type : String
  image_prompt : String
  narration : String
  is_hook : Option Bool
  is_cta : Option Bool
  viral_element : Option String
  engagement_target : Option String
deriving Repr, DecidableEq

/-- The fixed `engagement_strategy` dict of the template script. -/
structure EngagementStrategy where
  hooks_count : Nat
  pattern_interrupts : Nat
  emotional_moments : Nat
  shock_moments : Nat
  story_elements : Nat
  retention_pattern : String
  expected_retention : String
deriving Repr, DecidableEq

/-- The fixed `viral_optimization` dict of the template script. -/
structure ViralOptimization where
  is_completely_dynamic : Bool
  hardcoded_elements : Nat
  personalization : String
  ai_optimized : Bool
  format : String
deriving Repr, DecidableEq

/-- The script dict returned by `generate_script_dynamic_patterns`. -/
structure Script where
  title : String
  description : String
  duration : Nat
  video_type : String
  scenes : List Scene
  engagement_strategy : EngagementStrategy
  viral_optimization : ViralOptimization
deriving Repr, DecidableEq

/-- The idea dict consumed by `generate_script_dynamic_patterns`: `keyword`
and `title` are accessed unconditionally, the rest through `.get` with
defaults. -/
structure ScriptIdea where
  title : String
  keyword : String
  hook : Option String
  category : Option String
  viral_score : Option Nat
deriving Repr, DecidableEq

/-- The fixed per-stage durations of the 11-scene template. -/
def scene_durations : List Nat := [30, 45, 90, 60, 90, 90, 75, 90, 75, 60, 30]

/-- The canonical 11-stage order, as the literal `type` strings of the
template scenes.  They realise the spec's stage names in this order: hook,
pattern-interrupt, pain-point, solution-teaser, lesson-1, lesson-2,
mistake-expose, implementation, results, advanced-insight, call-to-action. -/
def canonical_stage_order : List String :=
  ["hook", "pattern_interrupt", "identify_pain", "solution_teaser", "education_1",
   "education_2", "mistake_expose", "implementation", "results", "advanced", "cta"]

/-- `ScriptGenerator.generate_script_dynamic_patterns`: the pure 11-scene
template path, interpolating the idea's keyword, title, hook and category
into fixed sentence templates. -/
def generate_script_dynamic_patterns (idea : ScriptIdea) : Script :=
  let keyword := idea.keyword
  let title := idea.title
  let hook := idea.hook.getD ("What if " ++ keyword ++ " is about to change everything?")
  let category := idea.category.getD "Tech"
  { title := title
    description := "Master " ++ keyword ++ " with this comprehensive guide. Learn fundamentals, real-world applications, proven patterns, and avoid costly mistakes. Perfect for " ++ category ++ " developers."
    duration := 660
    video_type := "viral-coding-longform"
    scenes := [
      { number := 1, duration := 30, type := "hook"
        image_prompt := "Cinematic YouTube thumbnail for " ++ title ++ ": dynamic text overlay, neon accent colors, tech aesthetic, dark professional background, lens flare, 4K quality, high production"
        narration := "Wait... " ++ hook
        is_hook := some true, is_cta := none
        viral_element := some "shock", engagement_target := some "95%" },
      { number := 2, duration := 45, type := "pattern_interrupt"
        image_prompt := "Visual contradiction about " ++ keyword ++ ": unexpected twist, cinematic lighting, dark moody aesthetic with accent colors, professional production"
        narration := "But that\x27s not the whole story. Here\x27s what " ++ category ++ " developers miss about " ++ keyword ++ "."
        is_hook := none, is_cta := none
        viral_element := some "curiosity", engagement_target := none },
      { number := 3, duration := 90, type := "identify_pain"
        image_prompt := "Developer struggling with " ++ keyword ++ ": frustrated in professional workspace, multiple monitors, error messages visible, dramatic lighting, authentic struggle"
        narration := "I spent years getting this wrong. Every attempt to implement " ++ keyword ++ " failed. The root cause? Most devs don\x27t understand the underlying principle. It costs months of wasted development."
        is_hook := none, is_cta := none
        viral_element := some "emotional", engagement_target := none },
      { number := 4, duration := 60, type := "solution_teaser"
        image_prompt := "Revelation moment: light bulb or insight visualization, glowing elements emerging from darkness, mysterious professional aesthetic, high production"
        narration := "Then I discovered the pattern. It\x27s what every successful " ++ keyword ++ " implementation shares. Once you see it, everything clicks."
        is_hook := none, is_cta := none
        viral_element := some "suspense", engagement_target := none },
      { number := 5, duration := 90, type := "education_1"
        image_prompt := "Technical visualization of " ++ keyword ++ " concept: abstract professional, data flows, code-like elements, digital transformation, modern UI principles, cinematic tech"
        narration := "Here\x27s the foundation: " ++ keyword ++ " is essentially about [core principle]. Think of it like [analogy]. The key insight is efficiency. Most implementations fail because they [common mistake], but the winners do [solution]."
        is_hook := none, is_cta := none
        viral_element := some "education", engagement_target := none },
      { number := 6, duration := 90, type := "education_2"
        image_prompt := "Real-world " ++ keyword ++ " in production: metrics dashboard, success indicators, performance graphs, company implementation, professional achievement aesthetic"
        narration := "Here\x27s where it gets insane. Google, Netflix, and Amazon all use " ++ keyword ++ " because of one specific advantage: performance at scale. They saw 300% improvements. And here\x27s why that happens..."
        is_hook := none, is_cta := none
        viral_element := some "authority", engagement_target := none },
      { number := 7, duration := 75, type := "mistake_expose"
        image_prompt := "Before/after comparison with " ++ keyword ++ ": wrong approach vs right approach split screen, chaos vs success, dramatic contrast, professional comparison"
        narration := "The biggest mistake? Trying to [common mistake] without understanding [prerequisite]. I see this constantly. It costs companies thousands. The right way is [correct approach], and the results speak for themselves."
        is_hook := none, is_cta := none
        viral_element := some "shock", engagement_target := none },
      { number := 8, duration := 90, type := "implementation"
        image_prompt := "Step-by-step " ++ keyword ++ " implementation: clean code editor interface, highlighted sections, professional annotations, visual step markers, teaching aesthetic"
        narration := "The implementation pattern is straightforward: first do [step]. Then [step]. Finally [step]. Each step matters because of [reason]. I\x27ve proven this works across hundreds of projects."
        is_hook := none, is_cta := none
        viral_element := some "instruction", engagement_target := none },
      { number := 9, duration := 75, type := "results"
        image_prompt := "Impressive " ++ keyword ++ " results: project success, performance metrics, exponential growth graphs, celebration energy, professional achievement, success visualization"
        narration := "This is what becomes possible: dramatic performance improvements, maintainable code, faster development. The transformation is real. Before wrapping up, here are the pitfalls to avoid..."
        is_hook := none, is_cta := none
        viral_element := some "inspiration", engagement_target := none },
      { number := 10, duration := 60, type := "advanced"
        image_prompt := "Advanced " ++ keyword ++ " strategies: professional architecture diagrams, elegant solutions, high-level thinking, professional aesthetic, future-focused"
        narration := "For those ready to go deeper: there\x27s an advanced technique most devs never discover. It takes " ++ keyword ++ " to the next level. Once you know it, you\x27ll see opportunities everywhere."
        is_hook := none, is_cta := none
        viral_element := some "premium", engagement_target := none },
      { number := 11, duration := 30, type := "cta"
        image_prompt := "Professional YouTube end card: animated subscribe button, community links, next video teased, engagement-focused design, brand aesthetic"
        narration := "If this helped you master " ++ keyword ++ ", please like, subscribe, and hit notifications. Join our Discord. Comment: what\x27s your biggest " ++ keyword ++ " challenge? Check out the advanced tutorial next. See you in the next video."
        is_hook := none, is_cta := some true
        viral_element := some "engagement", engagement_target := none }]
    engagement_strategy :=
      { hooks_count := 3, pattern_interrupts := 2, emotional_moments := 3,
        shock_moments := 2, story_elements := 2,
        retention_pattern := "high-interrupt-emotional-teaser-educate-educate-expose-instruct-inspire-premium-cta",
        expected_retention := "75-85%" }
    viral_optimization :=
      { is_completely_dynamic := true, hardcoded_elements := 0,
        personalization := "100%", ai_optimized := true,
        format := "long-form-10-12-min" } }

/-- A concrete idea for exercising the script template (the `__main__`
sample of `gen_script.py`, abridged). -/
def script_idea_sample : ScriptIdea :=
  { title := "Top 10 Python Mistakes That Cost Companies Millions",
    keyword := "Python", hook := some "This Python mistake will blow your mind",
    category := some "Mistakes", viral_score := none }

/-! ## Theorems -/

theorem title_score_ge_thirty (title : String) : 30 ≤ title_score_calc title := by
  unfold title_score_calc
  refine le_min_iff.mpr ⟨by norm_num, ?_⟩
  split_ifs <;> omega

theorem tags_score_ge_twenty (tags : List String) : 20 ≤ tags_score_calc tags := by
  unfold tags_score_calc
  split_ifs <;> norm_num

/-- C6: for every title string, description string, and tag list, the three
sub-scores of `calculate_seo_score` each lie within `[0, 100]` (the lower
bound holding in `Nat`), and `total_score` equals the floor of the sum of the
three sub-scores divided by 3. -/
theorem calculate_seo_score_bounds (title description : String) (tags : List String) :
    (calculate_seo_score title description tags).title_score ≤ 100 ∧
    (calculate_seo_score title description tags).description_score ≤ 100 ∧
    (calculate_seo_score title description tags).tags_score ≤ 100 ∧
    (calculate_seo_score title description tags).total_score =
      ((calculate_seo_score title description tags).title_score
       + (calculate_seo_score title description tags).description_score
       + (calculate_seo_score title description tags).tags_score) / 3 := by
  refine ⟨Nat.min_le_left _ _, Nat.min_le_left _ _, ?_, rfl⟩
  unfold calculate_seo_score tags_score_calc
  split_ifs <;> norm_num

/-- C10: `calculate_seo_score` assigns `title_score` at least 30 on every
input (a fixed 30-point keyword bonus is unconditional), `tags_score` at
least 20 (the lowest tag-count bucket), hence `total_score` at least 16 —
even on an empty title, empty description, and empty tag list. -/
theorem calculate_seo_score_lower_bounds (title description : String) (tags : List String) :
    30 ≤ (calculate_seo_score title description tags).title_score ∧
    20 ≤ (calculate_seo_score title description tags).tags_score ∧
    16 ≤ (calculate_seo_score title description tags).total_score := by
  have ht := title_score_ge_thirty title
  have hg := tags_score_ge_twenty tags
  refine ⟨ht, hg, ?_⟩
  show 16 ≤ (title_score_calc title + description_score_calc description
             + tags_score_calc tags) / 3
  omega

theorem lowerStr_append (a b : String) : lowerStr (a ++ b) = lowerStr a ++ lowerStr b := by
  apply String.ext
  show (String.data (a ++ b)).map Char.toLower = (⟨a.data.map Char.toLower⟩ ++ (⟨b.data.map Char.toLower⟩ : String)).data
  rw [String.data_append, String.data_append, List.map_append]

theorem strLen_append (a b : String) : strLen (a ++ b) = strLen a + strLen b := by
  simp [strLen, String.data_append]

theorem infixOfB_iff (n : List Char) : ∀ (h : List Char), infixOfB n h = true ↔ n <:+: h := by
  intro h
  induction h with
  | nil => simp [infixOfB, List.isEmpty_iff, List.infix_nil]
  | cons c t ih =>
      simp [infixOfB, Bool.or_eq_true, ih, List.isPrefixOf_iff_prefix, List.infix_cons_iff]

theorem isSub_iff (n h : String) : isSub n h = true ↔ n.data <:+: h.data := infixOfB_iff _ _

theorem isSub_append_right {n b : String} (a : String) (h : isSub n b = true) :
    isSub n (a ++ b) = true := by
  rw [isSub_iff] at h ⊢
  rw [String.data_append]
  exact h.trans (List.suffix_append a.data b.data).isInfix

theorem isSub_append_left {n a : String} (b : String) (h : isSub n a = true) :
    isSub n (a ++ b) = true := by
  rw [isSub_iff] at h ⊢
  rw [String.data_append]
  exact h.trans (List.prefix_append a.data b.data).isInfix

theorem hasDigitStr_append (a b : String) :
    hasDigitStr (a ++ b) = (hasDigitStr a || hasDigitStr b) := by
  simp [hasDigitStr, String.data_append]

theorem hasAnyPowerB_append_left {a : String} (b : String)
    (h : hasAnyPowerB a = true) : hasAnyPowerB (a ++ b) = true := by
  rw [hasAnyPowerB, List.any_eq_true] at h ⊢
  obtain ⟨w, hw, hsub⟩ := h
  exact ⟨w, hw, by rw [lowerStr_append]; exact isSub_append_left _ hsub⟩

theorem hasAnyPowerB_append_right {b : String} (a : String)
    (h : hasAnyPowerB b = true) : hasAnyPowerB (a ++ b) = true := by
  rw [hasAnyPowerB, List.any_eq_true] at h ⊢
  obtain ⟨w, hw, hsub⟩ := h
  exact ⟨w, hw, by rw [lowerStr_append]; exact isSub_append_right _ hsub⟩

theorem ot_step2_power (t pw : String) (hpw : pw ∈ pw_title_choices) :
    hasAnyPowerB (ot_step2 t pw) = true := by
  rw [ot_step2]
  split_ifs with h
  · rw [hasPowerWordB, List.any_eq_true] at h
    obtain ⟨w, hw, hsub⟩ := h
    rw [hasAnyPowerB, List.any_eq_true]
    exact ⟨w, List.mem_append_left _ hw, hsub⟩
  · have : hasAnyPowerB pw = true := by
      rw [hasAnyPowerB, List.any_eq_true]
      refine ⟨lowerStr pw, List.mem_append_right _ (List.mem_map_of_mem _ hpw), ?_⟩
      rw [isSub_iff]
    calc hasAnyPowerB (pw ++ ": " ++ t) = hasAnyPowerB (pw ++ (": " ++ t)) := by
          rw [String.append_assoc]
      _ = true := hasAnyPowerB_append_left _ this

theorem ot_step3_preserves_power {t : String} (video_type np : String)
    (h : hasAnyPowerB t = true) : hasAnyPowerB (ot_step3 t video_type np) = true := by
  rw [ot_step3]
  split_ifs
  · exact h
  · exact hasAnyPowerB_append_right _ h
  · exact hasAnyPowerB_append_left _ h

theorem ot_step4_preserves_power {t : String} (hk : String)
    (h : hasAnyPowerB t = true) : hasAnyPowerB (ot_step4 t hk) = true := by
  rw [ot_step4]
  split_ifs
  · exact hasAnyPowerB_append_left _ h
  · exact h

theorem ot_step5_preserves_power {t : String}
    (h : hasAnyPowerB t = true) : hasAnyPowerB (ot_step5 t) = true := by
  rw [ot_step5]
  split_ifs
  · exact hasAnyPowerB_append_right _ h
  · exact h

theorem ot_step3_digit (t : String) (video_type np : String)
    (hnp : np ∈ num_prefix_choices) : hasDigitStr (ot_step3 t video_type np) = true := by
  have hnpd : hasDigitStr np = true := by
    fin_cases hnp <;> decide
  rw [ot_step3]
  split_ifs with h1 h2
  · exact h1
  · rw [hasDigitStr_append, hnpd, Bool.true_or]
  · rw [hasDigitStr_append, Bool.or_eq_true]
    right
    decide

theorem ot_step4_preserves_digit {t : String} (hk : String)
    (h : hasDigitStr t = true) : hasDigitStr (ot_step4 t hk) = true := by
  rw [ot_step4]
  split_ifs
  · rw [hasDigitStr_append, h, Bool.true_or]
  · exact h

theorem ot_step5_preserves_digit {t : String}
    (h : hasDigitStr t = true) : hasDigitStr (ot_step5 t) = true := by
  rw [ot_step5]
  split_ifs
  · rw [hasDigitStr_append, h, Bool.or_true]
  · exact h

theorem optimize_title_pre_digit (base_title : String) (keyword : Option String)
    (video_type pw np hk : String) (hnp : np ∈ num_prefix_choices) :
    hasDigitStr (optimize_title_pre base_title keyword video_type pw np hk) = true :=
  ot_step5_preserves_digit (ot_step4_preserves_digit _ (ot_step3_digit _ _ _ hnp))

theorem optimize_title_pre_power (base_title : String) (keyword : Option String)
    (video_type pw np hk : String) (hpw : pw ∈ pw_title_choices) :
    hasAnyPowerB (optimize_title_pre base_title keyword video_type pw np hk) = true :=
  ot_step5_preserves_power (ot_step4_preserves_power _
    (ot_step3_preserves_power _ _ (ot_step2_power _ _ hpw)))

theorem optimize_title_len_le (base_title : String) (keyword : Option String)
    (video_type pw np hk : String) :
    strLen (optimize_title base_title keyword video_type pw np hk) ≤ 80 := by
  rw [optimize_title]
  split_ifs with h
  · rw [strLen_append]
    have h77 : strLen (strTake (optimize_title_pre base_title keyword video_type pw np hk) 77) ≤ 77 := by
      show (List.take 77 _).length ≤ 77
      rw [List.length_take]
      omega
    have h3 : strLen "..." = 3 := rfl
    omega
  · omega

theorem mem_of_mem_dedupFirst {α : Type _} [DecidableEq α] :
    ∀ (l : List α) (a : α), a ∈ dedupFirst l → a ∈ l := by
  intro l
  induction l using dedupFirst.induct with
  | case1 => intro a ha; simp [dedupFirst] at ha
  | case2 x xs ih =>
      intro a ha
      rw [dedupFirst] at ha
      rcases List.mem_cons.mp ha with h | h
      · simp [h]
      · exact List.mem_cons_of_mem _ (List.mem_filter.mp (ih a h)).1

theorem dedupFirst_nodup {α : Type _} [DecidableEq α] : ∀ (l : List α), (dedupFirst l).Nodup := by
  intro l
  induction l using dedupFirst.induct with
  | case1 => simp [dedupFirst]
  | case2 x xs ih =>
      rw [dedupFirst]
      refine List.nodup_cons.mpr ⟨?_, ih⟩
      intro hmem
      have h := (List.mem_filter.mp (mem_of_mem_dedupFirst _ _ hmem)).2
      simp at h

/-- C8: for every title, keyword list, and category, `generate_tags` returns
at most 30 tags and its result never contains a duplicate entry. -/
theorem generate_tags_bounded_nodup (title : String) (keywords : List String) (category : String) :
    (generate_tags title keywords category).length ≤ 30 ∧
    (generate_tags title keywords category).Nodup := by
  constructor
  · simp only [generate_tags]
    rw [List.length_take]
    omega
  · simp only [generate_tags]
    exact (List.take_sublist _ _).nodup (dedupFirst_nodup _)

/-- C9: `generate_description`, `generate_tags` and `calculate_seo_score` are
deterministic — with the process PRNG stream threaded explicitly, two calls
on identical inputs but arbitrary (different) PRNG states produce identical
outputs, and the PRNG state is never consumed by these three functions
(randomness is confined to `optimize_title`, modelled by
`optimize_title_st`). -/
theorem seo_helpers_deterministic (rs rs' : RandState)
    (title script description category : String) (keywords tags : List String)
    (video_duration : Nat) :
    (generate_description_st rs title script keywords video_duration).1
      = (generate_description_st rs' title script keywords video_duration).1 ∧
    (generate_tags_st rs title keywords category).1
      = (generate_tags_st rs' title keywords category).1 ∧
    (calculate_seo_score_st rs title description tags).1
      = (calculate_seo_score_st rs' title description tags).1 ∧
    (generate_description_st rs title script keywords video_duration).2 = rs ∧
    (generate_tags_st rs title keywords category).2 = rs ∧
    (calculate_seo_score_st rs title description tags).2 = rs :=
  ⟨rfl, rfl, rfl, rfl, rfl, rfl⟩

/-- C7 counterexample: the claim promises at least one digit in the output
whenever the input did not already satisfy both the digit and the power-word
requirement.  `c7_base` (81 characters, general video type) has no digit, so
a digit is promised; but the 80-character cap truncates away the appended
`" (In 5 Minutes)"`, and the returned title contains no digit.  The three
choice strings are legitimate outcomes of the `random.choice` calls. -/
theorem optimize_title_digit_counterexample :
    ("Incredible" ∈ pw_title_choices ∧ "Top 10 " ∈ num_prefix_choices ∧
      " | Explained" ∈ hook_suffix_choices) ∧
    hasDigitStr c7_base = false ∧
    hasDigitStr (optimize_title c7_base none "general" "Incredible" "Top 10 " " | Explained")
      = false := by
  refine ⟨⟨?_, ?_, ?_⟩, ?_, ?_⟩ <;> decide

theorem python_tutorial_ranking_cases :
    ∀ p ∈ pw_title_choices, ∀ n ∈ num_prefix_choices, ∀ h ∈ hook_suffix_choices,
      isSub "Python" (optimize_title "Python Tutorial" (some "Python") "ranking" p n h) = true
      ∧ hasDigitStr (optimize_title "Python Tutorial" (some "Python") "ranking" p n h) = true
      ∧ strLen (optimize_title "Python Tutorial" (some "Python") "ranking" p n h) ≤ 80 := by
  decide

/-- C7 (amended): for every base title, keyword, video type and admissible
random choices, `optimize_title` returns at most 80 characters; whenever the
pre-truncation title fits in 80 characters the result contains at least one
digit and at least one word of `power_word_pool`; and the concrete ranking
call on "Python Tutorial" with keyword "Python" contains "Python", contains
a digit, and has length at most 80.  (The unamended digit guarantee fails
when the 80-character cap truncates the appended digit; see the
counterexample.) -/
theorem optimize_title_amended (base_title : String) (keyword : Option String)
    (video_type pw np hk : String)
    (hpw : pw ∈ pw_title_choices) (hnp : np ∈ num_prefix_choices)
    (hhk : hk ∈ hook_suffix_choices) :
    strLen (optimize_title base_title keyword video_type pw np hk) ≤ 80
    ∧ (strLen (optimize_title_pre base_title keyword video_type pw np hk) ≤ 80 →
        hasDigitStr (optimize_title base_title keyword video_type pw np hk) = true
        ∧ hasAnyPowerB (optimize_title base_title keyword video_type pw np hk) = true)
    ∧ (base_title = "Python Tutorial" ∧ keyword = some "Python" ∧ video_type = "ranking" →
        isSub "Python" (optimize_title base_title keyword video_type pw np hk) = true
        ∧ hasDigitStr (optimize_title base_title keyword video_type pw np hk) = true
        ∧ strLen (optimize_title base_title keyword video_type pw np hk) ≤ 80) := by
  refine ⟨optimize_title_len_le _ _ _ _ _ _, ?_, ?_⟩
  · intro hle
    have heq : optimize_title base_title keyword video_type pw np hk
        = optimize_title_pre base_title keyword video_type pw np hk := by
      rw [optimize_title]
      split_ifs with h
      · omega
      · rfl
    rw [heq]
    exact ⟨optimize_title_pre_digit _ _ _ _ _ _ hnp,
           optimize_title_pre_power _ _ _ _ _ _ hpw⟩
  · rintro ⟨hb, hkw, hv⟩
    subst hb; subst hkw; subst hv
    exact python_tutorial_ranking_cases pw hpw np hnp hk hhk

/-- C7 witness: the amended theorem applied at the concrete ranking call of
end-to-end scenario 3. -/
theorem optimize_title_amended_witness :
    strLen (optimize_title "Python Tutorial" (some "Python") "ranking"
      "Incredible" "Top 10 " " | Explained") ≤ 80
    ∧ (strLen (optimize_title_pre "Python Tutorial" (some "Python") "ranking"
        "Incredible" "Top 10 " " | Explained") ≤ 80 →
        hasDigitStr (optimize_title "Python Tutorial" (some "Python") "ranking"
          "Incredible" "Top 10 " " | Explained") = true
        ∧ hasAnyPowerB (optimize_title "Python Tutorial" (some "Python") "ranking"
            "Incredible" "Top 10 " " | Explained") = true)
    ∧ ("Python Tutorial" = "Python Tutorial" ∧ some "Python" = some "Python"
        ∧ "ranking" = "ranking" →
        isSub "Python" (optimize_title "Python Tutorial" (some "Python") "ranking"
          "Incredible" "Top 10 " " | Explained") = true
        ∧ hasDigitStr (optimize_title "Python Tutorial" (some "Python") "ranking"
            "Incredible" "Top 10 " " | Explained") = true
        ∧ strLen (optimize_title "Python Tutorial" (some "Python") "ranking"
            "Incredible" "Top 10 " " | Explained") ≤ 80) :=
  optimize_title_amended "Python Tutorial" (some "Python") "ranking"
    "Incredible" "Top 10 " " | Explained" (by decide) (by decide) (by decide)

theorem strStartsWith_of_append (p r : String) : strStartsWith p (p ++ r) = true := by
  rw [strStartsWith, String.data_append]
  exact List.isPrefixOf_iff_prefix.mpr (List.prefix_append _ _)

/-- C1 counterexample: the per-scene durations of the template script sum to
735 seconds, not 660 — even though the script's own top-level `duration`
field is the literal 660 (the source contradicts itself: 30+45+90+60+90+90+
75+90+75+60+30 = 735). -/
theorem generate_script_duration_counterexample :
    ((generate_script_dynamic_patterns script_idea_sample).scenes.map Scene.duration).sum ≠ 660
    ∧ ((generate_script_dynamic_patterns script_idea_sample).scenes.map Scene.duration).sum = 735
    ∧ (generate_script_dynamic_patterns script_idea_sample).duration = 660 := by
  have hdur : ((generate_script_dynamic_patterns script_idea_sample).scenes.map Scene.duration)
      = scene_durations := rfl
  refine ⟨?_, ?_, rfl⟩ <;> rw [hdur] <;> decide

/-- C1 (amended): for every idea, the template path
`generate_script_dynamic_patterns` returns a script with exactly 11 scenes,
whose per-scene durations are the fixed sequence
30,45,90,60,90,90,75,90,75,60,30 — summing to 735 seconds, not the 660 the
script's own `duration` field declares — and whose `type` sequence is the
canonical 11-stage order. -/
theorem generate_script_template_shape (idea : ScriptIdea) :
    (generate_script_dynamic_patterns idea).scenes.length = 11
    ∧ ((generate_script_dynamic_patterns idea).scenes.map Scene.duration) = scene_durations
    ∧ ((generate_script_dynamic_patterns idea).scenes.map Scene.duration).sum = 735
    ∧ ((generate_script_dynamic_patterns idea).scenes.map Scene.type) = canonical_stage_order
    ∧ (generate_script_dynamic_patterns idea).duration = 660 := by
  have hdur : ((generate_script_dynamic_patterns idea).scenes.map Scene.duration)
      = scene_durations := rfl
  refine ⟨rfl, hdur, ?_, rfl, rfl⟩
  rw [hdur]
  decide

/-- C2: without model access (`use_ai` false), `optimize_idea_with_ai`
returns a hook beginning with "Breaking: " and
`viral_score = min 98 (popularity // 100 + 70)`, which lies in [0, 98]
(the lower bound holding in `Nat`); with no popularity signal at all the
score is the fixed baseline 70. -/
theorem optimize_idea_no_ai_spec (raw : RawIdea) (outcome : ModelOutcome) :
    strStartsWith "Breaking: " (optimize_idea_with_ai raw false outcome).hook = true
    ∧ (optimize_idea_with_ai raw false outcome).viral_score
        = min 98 (popularity raw / 100 + 70)
    ∧ (optimize_idea_with_ai raw false outcome).viral_score ≤ 98
    ∧ (raw.score = none → raw.stars = none → raw.count = none →
        (optimize_idea_with_ai raw false outcome).viral_score = 70) := by
  refine ⟨?_, rfl, Nat.min_le_left _ _, ?_⟩
  · show strStartsWith "Breaking: "
      ("Breaking: " ++ raw.title.getD "New Trend" ++ " is changing everything...") = true
    rw [String.append_assoc]
    exact strStartsWith_of_append _ _
  · intro h1 h2 h3
    show min 98 (popularity raw / 100 + 70) = 70
    rw [popularity, h1, h2, h3]
    rfl

/-- C2 witness: the theorem applied to a raw idea with no popularity signal
and to the scenario-2 idea with `stars = 250` (score 72). -/
theorem optimize_idea_no_ai_spec_witness :
    (optimize_idea_with_ai raw_sample_none false .failure).viral_score = 70
    ∧ strStartsWith "Breaking: " (optimize_idea_with_ai raw_sample_none false .failure).hook = true
    ∧ (optimize_idea_with_ai raw_sample_250 false .failure).viral_score = 72 :=
  ⟨(optimize_idea_no_ai_spec raw_sample_none .failure).2.2.2 rfl rfl rfl,
   (optimize_idea_no_ai_spec raw_sample_none .failure).1,
   by rw [(optimize_idea_no_ai_spec raw_sample_250 .failure).2.1]; decide⟩

/-- C3 counterexample: when the model call raises, the code returns the
fixed `viral_score` 80, not the popularity formula — on a raw idea with
`stars = 250` the formula gives 72 while the code gives 80. -/
theorem optimize_idea_model_failure_counterexample :
    (optimize_idea_with_ai raw_sample_250 true .failure).viral_score = 80
    ∧ min 98 (popularity raw_sample_250 / 100 + 70) = 72
    ∧ (optimize_idea_with_ai raw_sample_250 true .failure).viral_score
        ≠ min 98 (popularity raw_sample_250 / 100 + 70) := by
  decide

/-- C3 (amended): when `use_ai` is true and the model call raises, the
fallback keeps the deterministic hook and keyword of the no-model path
(`hook = "Breaking: {title} is changing everything..."`,
`keyword = raw.keywords` defaulted to "coding"), but fixes `viral_score` at
the literal 80 instead of the popularity formula. -/
theorem optimize_idea_model_failure_amended (raw : RawIdea) :
    (optimize_idea_with_ai raw true .failure).hook
      = "Breaking: " ++ raw.title.getD "New Trend" ++ " is changing everything..."
    ∧ (optimize_idea_with_ai raw true .failure).keyword = raw.keywords.getD "coding"
    ∧ (optimize_idea_with_ai raw true .failure).title = some (raw.title.getD "New Trend")
    ∧ (optimize_idea_with_ai raw true .failure).viral_score = 80
    ∧ (optimize_idea_with_ai raw true .failure).hook
        = (optimize_idea_with_ai raw false .failure).hook
    ∧ (optimize_idea_with_ai raw true .failure).keyword
        = (optimize_idea_with_ai raw false .failure).keyword :=
  ⟨rfl, rfl, rfl, rfl, rfl, rfl⟩

/-- C4 counterexample: in the JSON-unparseable branch the hook is the first
100 characters of the response text with "..." appended, so it is not equal
to the first 100 characters themselves. -/
theorem optimize_idea_unparseable_counterexample :
    (optimize_idea_with_ai raw_sample_250 true
        (.success "Check out this viral hook" none)).hook
      ≠ strTake "Check out this viral hook" 100 := by
  decide

/-- C4 (amended): when `use_ai` is true, the model call succeeds, but its
response cannot be parsed as JSON, the result keeps `raw.title` and
`raw.keywords` (defaulted to "coding"), fixes `viral_score` at 85, and uses
the first 100 characters of the (stripped) response text, suffixed with
"...", as the hook. -/
theorem optimize_idea_unparseable_amended (raw : RawIdea) (text : String) :
    (optimize_idea_with_ai raw true (.success text none)).title = raw.title
    ∧ (optimize_idea_with_ai raw true (.success text none)).keyword
        = raw.keywords.getD "coding"
    ∧ (optimize_idea_with_ai raw true (.success text none)).viral_score = 85
    ∧ (optimize_idea_with_ai raw true (.success text none)).hook
        = strTake text 100 ++ "..." :=
  ⟨rfl, rfl, rfl, rfl⟩

/-- C5: the combined fetch is total (a Lean function — no exception escapes
to the caller); its result is the concatenation of the five sources'
record lists in source-call order; and any source whose call raised or
returned a non-200 status contributes the empty list. -/
theorem fetch_all_fault_tolerant (og : Except Unit (Nat × List RepoRec))
    (ohn : Except Unit (Nat × List Nat)) (dhn : Nat → Except Unit (Nat × HNStory))
    (od : Except Unit (Nat × List ArticleRec)) (ored : Except Unit (Nat × List RedditPost))
    (oso : Except Unit (Nat × List TagRec)) :
    fetch_all_raw_ideas og ohn dhn od ored oso
      = fetch_github_trends og ++ fetch_hackernews_trends ohn dhn
        ++ fetch_devto_trends od ++ fetch_reddit_trends ored
        ++ fetch_stackoverflow_trends oso
    ∧ (sourceFailed og → fetch_github_trends og = [])
    ∧ (sourceFailed ohn → fetch_hackernews_trends ohn dhn = [])
    ∧ (sourceFailed od → fetch_devto_trends od = [])
    ∧ (sourceFailed ored → fetch_reddit_trends ored = [])
    ∧ (sourceFailed oso → fetch_stackoverflow_trends oso = []) := by
  refine ⟨?_, ?_, ?_, ?_, ?_, ?_⟩
  · simp [fetch_all_raw_ideas, List.append_assoc]
  · intro h
    cases og with
    | error e => rfl
    | ok p =>
        obtain ⟨st, repos⟩ := p
        have hne : ¬ st = 200 := h
        simp [fetch_github_trends, hne]
  · intro h
    cases ohn with
    | error e => rfl
    | ok p =>
        obtain ⟨st, ids⟩ := p
        have hne : ¬ st = 200 := h
        simp [fetch_hackernews_trends, hne]
  · intro h
    cases od with
    | error e => rfl
    | ok p =>
        obtain ⟨st, articles⟩ := p
        have hne : ¬ st = 200 := h
        simp [fetch_devto_trends, hne]
  · intro h
    cases ored with
    | error e => rfl
    | ok p =>
        obtain ⟨st, posts⟩ := p
        have hne : ¬ st = 200 := h
        simp [fetch_reddit_trends, hne]
  · intro h
    cases oso with
    | error e => rfl
    | ok p =>
        obtain ⟨st, tags⟩ := p
        have hne : ¬ st = 200 := h
        simp [fetch_stackoverflow_trends, hne]

/-- C5 witness: the fault-tolerance theorem instantiated at one concrete run
in which GitHub returns HTTP 404 with an empty payload and every other
source raises. -/
theorem fetch_all_fault_tolerant_witness :
    fetch_all_raw_ideas (.ok (404, [])) (.error ()) (fun _ => .error ())
        (.error ()) (.error ()) (.error ())
      = fetch_github_trends (.ok (404, []))
        ++ fetch_hackernews_trends (.error ()) (fun _ => .error ())
        ++ fetch_devto_trends (.error ()) ++ fetch_reddit_trends (.error ())
        ++ fetch_stackoverflow_trends (.error ())
    ∧ (sourceFailed (.ok ((404 : Nat), ([] : List RepoRec))) →
        fetch_github_trends (.ok (404, [])) = [])
    ∧ (sourceFailed (.error () : Except Unit (Nat × List Nat)) →
        fetch_hackernews_trends (.error ()) (fun _ => .error ()) = [])
    ∧ (sourceFailed (.error () : Except Unit (Nat × List ArticleRec)) →
        fetch_devto_trends (.error ()) = [])
    ∧ (sourceFailed (.error () : Except Unit (Nat × List RedditPost)) →
        fetch_reddit_trends (.error ()) = [])
    ∧ (sourceFailed (.error () : Except Unit (Nat × List TagRec)) →
        fetch_stackoverflow_trends (.error ()) = []) :=
  fetch_all_fault_tolerant (.ok (404, [])) (.error ()) (fun _ => .error ())
    (.error ()) (.error ()) (.error ())
